import Mathlib

/-
Verification of the CryptoTradingBot core (risk-control engine, signal
aggregation, control loop) against its natural-language specification.

The Python sources are shallowly embedded: floats become `ℚ`, dictionaries
become association lists (`List (String × _)`, first occurrence wins, as in
Python's insertion-ordered dicts), raised-and-caught exceptions become
`Except String` values consumed by an explicit handler, and external numeric
primitives (numpy's `sqrt` hiding inside pandas `corr`) are abstracted as a
function parameter together with its defining property.
-/

set_option autoImplicit false

/-- Association-list lookup, first occurrence wins (Python dict access). -/
def alookup {β : Type} (i : String) : List (String × β) → Option β
  | [] => none
  | kv :: rest => if kv.1 = i then some kv.2 else alookup i rest

/-- Association-list search returning the whole first entry with the given key. -/
def afind {β : Type} (i : String) : List (String × β) → Option (String × β)
  | [] => none
  | kv :: rest => if kv.1 = i then some kv else afind i rest

/-- Python's built-in `max` on a list: raises `ValueError` on an empty sequence
(`max() arg is an empty sequence`), which the embedding records as an error. -/
def pyMax : List ℚ → Except String ℚ
  | [] => Except.error "max() arg is an empty sequence"
  | x :: xs => Except.ok (xs.foldl max x)

/-- Per-instrument market condition (`advanced_risk_manager.py`, dataclass
`MarketCondition`). -/
structure MarketCondition where
  volatility : ℚ
  correlation : ℚ
  trend_strength : ℚ
  liquidity : ℚ
  sentiment : ℚ
  deriving DecidableEq, Repr

/-- Static emergency thresholds (`AdvancedRiskManager.__init__`,
`self.emergency_triggers`). -/
structure EmergencyTriggers where
  max_drawdown : ℚ
  max_daily_loss : ℚ
  min_liquidity : ℚ
  max_volatility : ℚ
  deriving DecidableEq, Repr

/-- One entry of the portfolio snapshot passed to `check_emergency_shutdown`.
`value` is accessed as `pos['value']`; `peak_value` and `daily_pl` are read
with `pos.get(..., 0)`, so the fields here hold the values after defaulting. -/
structure PortfolioPosition where
  value : ℚ
  peak_value : ℚ
  daily_pl : ℚ
  deriving DecidableEq, Repr

/-- Mutable state of `AdvancedRiskManager` relevant to the verified methods:
the configured triggers, the per-symbol market conditions (an
insertion-ordered dict) and the correlation matrix (a DataFrame, embedded as
rows of labelled columns; `none` before the first update). -/
structure AdvancedRiskManagerState where
  emergency_triggers : EmergencyTriggers
  market_conditions : List (String × MarketCondition)
  correlation_matrix : Option (List (String × List (String × ℚ)))
  deriving DecidableEq

/-- Reason string of the drawdown trigger (the `{drawdown:.2%}` float
formatting is rendered with `toString`; the claims only depend on the reason
template and its non-emptiness, never on the numeric rendering). -/
def reasonDrawdown (drawdown : ℚ) : String :=
  "Maximum drawdown exceeded: " ++ toString drawdown

/-- Reason string of the daily-loss trigger. -/
def reasonDailyLoss (daily_pl_pct : ℚ) : String :=
  "Maximum daily loss exceeded: " ++ toString daily_pl_pct

/-- Reason string of the per-symbol volatility trigger. -/
def reasonVolatility (symbol : String) (volatility : ℚ) : String :=
  "Excessive volatility in " ++ symbol ++ ": " ++ toString volatility

/-- Reason string of the per-symbol liquidity trigger. -/
def reasonLiquidity (symbol : String) : String :=
  "Insufficient liquidity in " ++ symbol

/-- Reason string produced by the `except` handler of
`check_emergency_shutdown`. -/
def reasonError (msg : String) : String :=
  "Error in risk assessment: " ++ msg

/-- Market-condition loop of `check_emergency_shutdown` (lines 188-195): for
each symbol in dict order, check volatility, then liquidity, returning at the
first hit. -/
def checkConditions (trig : EmergencyTriggers) :
    List (String × MarketCondition) → Bool × String
  | [] => (false, "")
  | (symbol, condition) :: rest =>
    if condition.volatility > trig.max_volatility then
      (true, reasonVolatility symbol condition.volatility)
    else if condition.liquidity < 1/2 then
      (true, reasonLiquidity symbol)
    else checkConditions trig rest

/-- Body of the `try` block of `check_emergency_shutdown`
(`advanced_risk_manager.py` lines 171-197).  `max` over the empty
peak-value sequence is the error case. -/
def checkEmergencyShutdownCore (rm : AdvancedRiskManagerState)
    (portfolio : List PortfolioPosition) : Except String (Bool × String) :=
  match pyMax (portfolio.map PortfolioPosition.peak_value) with
  | Except.error e => Except.error e
  | Except.ok peak_value =>
    let total_value := (portfolio.map PortfolioPosition.value).sum
    let drawdown := if peak_value > 0 then (peak_value - total_value) / peak_value else 0
    if drawdown > rm.emergency_triggers.max_drawdown then
      Except.ok (true, reasonDrawdown drawdown)
    else
      let daily_pl := (portfolio.map PortfolioPosition.daily_pl).sum
      let daily_pl_pct := if total_value > 0 then daily_pl / total_value else 0
      if daily_pl_pct < -rm.emergency_triggers.max_daily_loss then
        Except.ok (true, reasonDailyLoss daily_pl_pct)
      else
        Except.ok (checkConditions rm.emergency_triggers rm.market_conditions)

/-- Full `check_emergency_shutdown` (lines 169-201): the `except` handler
turns any internal error into `(True, "Error in risk assessment: ...")`. -/
def check_emergency_shutdown (rm : AdvancedRiskManagerState)
    (portfolio : List PortfolioPosition) : Bool × String :=
  match checkEmergencyShutdownCore rm portfolio with
  | Except.ok r => r
  | Except.error e => (true, reasonError e)

/-- First entry of a boolean trigger list whose condition holds; `(false, "")`
when none does.  Used to state the claim's short-circuit evaluation order. -/
def firstMatch : List (Bool × String) → Bool × String
  | [] => (false, "")
  | t :: rest => if t.1 then (true, t.2) else firstMatch rest

/-- Trigger sub-list contributed by the market conditions in the order the
code evaluates them: per symbol, volatility first, then liquidity. -/
def conditionTriggers (trig : EmergencyTriggers) (conds : List (String × MarketCondition)) :
    List (Bool × String) :=
  conds.flatMap (fun sc =>
    [(decide (sc.2.volatility > trig.max_volatility), reasonVolatility sc.1 sc.2.volatility),
     (decide (sc.2.liquidity < 1/2), reasonLiquidity sc.1)])

/-- Trigger sub-list in the order claimed by the spec sentence: first every
symbol's volatility condition, then every symbol's liquidity condition. -/
def conditionTriggersClaimOrder (trig : EmergencyTriggers)
    (conds : List (String × MarketCondition)) : List (Bool × String) :=
  conds.map (fun sc =>
    (decide (sc.2.volatility > trig.max_volatility), reasonVolatility sc.1 sc.2.volatility)) ++
  conds.map (fun sc => (decide (sc.2.liquidity < 1/2), reasonLiquidity sc.1))

/-- Shared head of both emergency-evaluation specifications: drawdown and
daily-loss triggers computed from the snapshot. -/
def portfolioTriggers (rm : AdvancedRiskManagerState)
    (portfolio : List PortfolioPosition) (peak_value : ℚ) : List (Bool × String) :=
  let total_value := (portfolio.map PortfolioPosition.value).sum
  let drawdown := if peak_value > 0 then (peak_value - total_value) / peak_value else 0
  let daily_pl := (portfolio.map PortfolioPosition.daily_pl).sum
  let daily_pl_pct := if total_value > 0 then daily_pl / total_value else 0
  [(decide (drawdown > rm.emergency_triggers.max_drawdown), reasonDrawdown drawdown),
   (decide (daily_pl_pct < -rm.emergency_triggers.max_daily_loss), reasonDailyLoss daily_pl_pct)]

/-- Specification of the emergency evaluation as a first-match scan over an
ordered trigger list, with the interleaved per-symbol order the code uses;
fail-safe on internal error. -/
def checkEmergencyShutdownSpec (rm : AdvancedRiskManagerState)
    (portfolio : List PortfolioPosition) : Bool × String :=
  match pyMax (portfolio.map PortfolioPosition.peak_value) with
  | Except.error e => (true, reasonError e)
  | Except.ok peak_value =>
    firstMatch (portfolioTriggers rm portfolio peak_value ++
      conditionTriggers rm.emergency_triggers rm.market_conditions)

/-- Evaluation of the emergency triggers in the order the claim states them:
drawdown, daily loss, all volatilities, then all liquidities. -/
def checkEmergencyShutdownClaimOrder (rm : AdvancedRiskManagerState)
    (portfolio : List PortfolioPosition) : Bool × String :=
  match pyMax (portfolio.map PortfolioPosition.peak_value) with
  | Except.error e => (true, reasonError e)
  | Except.ok peak_value =>
    firstMatch (portfolioTriggers rm portfolio peak_value ++
      conditionTriggersClaimOrder rm.emergency_triggers rm.market_conditions)

/-- Emergency evaluation with the drawdown trigger removed; used to state
that an exactly-at-threshold drawdown does not fire. -/
def checkEmergencyShutdownFromDaily (rm : AdvancedRiskManagerState)
    (portfolio : List PortfolioPosition) : Bool × String :=
  match pyMax (portfolio.map PortfolioPosition.peak_value) with
  | Except.error e => (true, reasonError e)
  | Except.ok peak_value =>
    firstMatch ((portfolioTriggers rm portfolio peak_value).drop 1 ++
      conditionTriggers rm.emergency_triggers rm.market_conditions)

/-- Drawdown of a snapshot as line 175 computes it (0 for the empty snapshot,
where the code errors out before using it). -/
def portfolioDrawdown (portfolio : List PortfolioPosition) : ℚ :=
  match pyMax (portfolio.map PortfolioPosition.peak_value) with
  | Except.error _ => 0
  | Except.ok peak_value =>
    if peak_value > 0 then
      (peak_value - (portfolio.map PortfolioPosition.value).sum) / peak_value
    else 0

/-- Body of the `try` block of `calculate_dynamic_stop_loss`
(`advanced_risk_manager.py` lines 115-139).  A missing condition (argument
`none` and no stored condition for the symbol) raises the
`No market condition data` ValueError, recorded as the error case. -/
def calculateDynamicStopLossCore (rm : AdvancedRiskManagerState) (symbol : String)
    (entry_price : ℚ) (market_condition : Option MarketCondition) :
    Except String (ℚ × ℚ) :=
  match (match market_condition with
         | some c => some c
         | none => alookup symbol rm.market_conditions) with
  | none => Except.error ("No market condition data for " ++ symbol)
  | some condition =>
    let base_stop : ℚ := 2/100
    let vol_factor := condition.volatility / (2/100)
    let vol_adjusted_stop := base_stop * vol_factor
    let trend_factor := 1 + condition.trend_strength / 100
    let trend_adjusted_stop := vol_adjusted_stop * trend_factor
    let final_stop_pct := min (max trend_adjusted_stop (1/100)) (5/100)
    Except.ok (entry_price * (1 - final_stop_pct), entry_price * (1 + final_stop_pct * 2))

/-- Full `calculate_dynamic_stop_loss` (lines 109-143): the `except` handler
catches every error raised in the body, its own ValueError included, and
returns the fixed 2 percent stop / 4 percent take-profit pair itself.
`position_size` is accepted and unused, as in the source. -/
def calculate_dynamic_stop_loss (rm : AdvancedRiskManagerState) (symbol : String)
    (entry_price : ℚ) (position_size : ℚ)
    (market_condition : Option MarketCondition) : ℚ × ℚ :=
  match calculateDynamicStopLossCore rm symbol entry_price market_condition with
  | Except.ok r => r
  | Except.error _ => (entry_price * (98/100), entry_price * (104/100))

/-- Market regime (`strategy_optimizer.py`, dataclass `MarketRegime`; the
comments there document `strength`, `direction` and `confidence` as ranging
over 0 to 1, -1 to 1 and 0 to 1 respectively). -/
structure MarketRegime where
  type : String
  strength : ℚ
  direction : ℚ
  confidence : ℚ
  deriving DecidableEq, Repr

/-- numpy's `np.sign` on a scalar. -/
def npSign (x : ℚ) : ℚ :=
  if 0 < x then 1 else if x < 0 then -1 else 0

/-- Indicator values read at the last bar inside `detect_market_regime`
(the `ta` library producing them is an external collaborator, so the values
are inputs of the embedded classifier). -/
structure RegimeIndicators where
  current_adx : ℚ
  current_bb_width : ℚ
  sma20_last : ℚ
  sma50_last : ℚ
  deriving DecidableEq, Repr

/-- Regime classification of `detect_market_regime` (`strategy_optimizer.py`
lines 101-130).  The `volatile` branch computes
`current_atr / current_atr.rolling(100).max()` on the float `current_atr`,
which raises `AttributeError`; the handler then returns the all-zero
`unknown` regime (and stores nothing), so that branch is the error fallback. -/
def detect_market_regime (ind : RegimeIndicators) : MarketRegime :=
  let trend_strength := ind.current_adx / 100
  let direction := npSign (ind.sma20_last - ind.sma50_last)
  if ind.current_adx > 25 then
    { type := "trending", strength := trend_strength, direction := direction,
      confidence := min (ind.current_adx / 50) 1 }
  else if ind.current_bb_width < 1/10 then
    { type := "ranging", strength := trend_strength, direction := direction,
      confidence := 1 - ind.current_bb_width }
  else
    { type := "unknown", strength := 0, direction := 0, confidence := 0 }

/-- Maximum of a rational list, as numpy's `.max()` computes it on the
class-probability vector (the vector of a fitted classifier is never empty). -/
def listMaxQ : List ℚ → ℚ
  | [] => 0
  | x :: xs => xs.foldl max x

/-- Regime adjustment of `StrategyOptimizer.predict` (lines 226-238): the
`predict_proba` output vector (an external model output, hence a parameter)
is scaled elementwise by the regime factor, and line 238 returns its max. -/
def regimeAdjustedProbability (probability : List ℚ) (regime : Option MarketRegime) : ℚ :=
  let adjusted :=
    match regime with
    | none => probability
    | some r =>
      if r.type = "trending" then
        probability.map (fun p => p * (1 + r.strength * r.confidence))
      else if r.type = "ranging" then
        probability.map (fun p => p * (1 - r.confidence * (1/2)))
      else if r.type = "volatile" then
        probability.map (fun p => p * (1 - r.confidence * (7/10)))
      else probability
  listMaxQ adjusted

/-- Result of evaluating one symbol inside `_check_and_execute_trades`
(`trading_engine.py` lines 156-211): either no position is recorded (signal
below threshold, non-positive size, or no fill), or the order fills and
`self.positions[symbol] = order` runs, or an exception escapes the body and
the surrounding `except` aborts the whole pass. -/
inductive TradeOutcome where
  | noTrade
  | filled
  | raises
  deriving DecidableEq, Repr

/-- Python dict key insertion on the key set: `positions[symbol] = order`
adds `symbol` only when it is not already a key. -/
def dictInsertKey (positions : List String) (symbol : String) : List String :=
  if symbol ∈ positions then positions else symbol :: positions

/-- Position-count bookkeeping of `_check_and_execute_trades` (lines
146-214): iterate the configured symbols, `break` as soon as
`len(self.positions) >= max_open_positions`, record a position when the
symbol's evaluation fills an order, and abort the pass when it raises. -/
def checkAndExecuteTrades (max_open_positions : ℕ) (outcome : String → TradeOutcome) :
    List String → List String → List String
  | positions, [] => positions
  | positions, symbol :: rest =>
    if positions.length ≥ max_open_positions then positions
    else
      match outcome symbol with
      | TradeOutcome.noTrade => checkAndExecuteTrades max_open_positions outcome positions rest
      | TradeOutcome.filled =>
        checkAndExecuteTrades max_open_positions outcome (dictInsertKey positions symbol) rest
      | TradeOutcome.raises => positions

/-- Open position as `_monitor_positions` sees it: the recorded order's
`price`, its `amount`, and the `stop_loss` key, absent until first set
(`position.get('stop_loss', 0)` reads 0 while absent). -/
structure EnginePosition where
  price : ℚ
  amount : ℚ
  stop_loss : Option ℚ
  deriving DecidableEq, Repr

/-- Trailing-stop update of `_monitor_positions` (`trading_engine.py` lines
235-248): a candidate stop is computed from the entry and current price by
`risk_manager.calculate_trailing_stop` (a function the repository never
defines, hence a parameter here) and replaces the stored stop-loss only when
strictly greater than `position.get('stop_loss', 0)`. -/
def monitorPositionStop (calculate_trailing_stop : ℚ → ℚ → ℚ) (current_price : ℚ)
    (position : EnginePosition) : EnginePosition :=
  let new_stop := calculate_trailing_stop position.price current_price
  if new_stop > position.stop_loss.getD 0 then
    { position with stop_loss := some new_stop }
  else position

/-- Body of the `try` block of `_combine_signals` (`trading_engine.py` lines
276-301).  `trading_engine.py` never imports numpy, so evaluating
`np.sign(dl_return)` on line 299 raises `NameError: name 'np' is not
defined` whenever `abs(dl_return)` exceeds the prediction threshold; the
embedding records that path as the error it is. -/
def combineSignalsCore (prediction_threshold : ℚ) (traditional_signal : ℚ)
    (dl_action : ℤ) (dl_confidence : ℚ) (dl_return : ℚ) : Except String ℚ :=
  let dl_signal : ℚ :=
    if dl_action = 0 then 0 else if dl_action = 1 then 1 else if dl_action = 2 then -1 else 0
  let traditional_weight : ℚ := 4/10
  let dl_weight := (6/10) * dl_confidence
  let combined :=
    (traditional_signal * traditional_weight + dl_signal * dl_weight) /
      (traditional_weight + dl_weight)
  if |dl_return| > prediction_threshold then
    Except.error "name np is not defined"
  else Except.ok combined

/-- Full `_combine_signals` (lines 270-305): any error in the body is caught
and 0.0 is returned. -/
def combine_signals (prediction_threshold : ℚ) (traditional_signal : ℚ)
    (dl_action : ℤ) (dl_confidence : ℚ) (dl_return : ℚ) : ℚ :=
  match combineSignalsCore prediction_threshold traditional_signal dl_action
      dl_confidence dl_return with
  | Except.ok v => v
  | Except.error _ => 0

/-- Value `_combine_signals` would return on the amplification path if
numpy were imported, written from the claim's formula; used to exhibit the
divergence between the claim and the code. -/
def combineSignalsClaimed (prediction_threshold : ℚ) (traditional_signal : ℚ)
    (dl_action : ℤ) (dl_confidence : ℚ) (dl_return : ℚ) : ℚ :=
  let dl_signal : ℚ :=
    if dl_action = 0 then 0 else if dl_action = 1 then 1 else if dl_action = 2 then -1 else 0
  let combined :=
    (traditional_signal * (4/10) + dl_signal * ((6/10) * dl_confidence)) /
      ((4/10) + (6/10) * dl_confidence)
  if |dl_return| > prediction_threshold then
    combined * (1 + npSign dl_return * min |dl_return| (1/10))
  else combined

/-- pandas `Series.pct_change().dropna()`: elementwise relative change
between consecutive prices, the undefined first entry dropped. -/
def pct_change (prices : List ℚ) : List ℚ :=
  (prices.zip prices.tail).map (fun p => (p.2 - p.1) / p.1)

/-- Arithmetic mean, as pandas `Series.mean()`. -/
def meanQ (xs : List ℚ) : ℚ := xs.sum / (xs.length : ℚ)

/-- Sample covariance of two aligned series (pandas pairwise semantics:
products over the zipped pairs, divided by the pair count minus one). -/
def covQ (xs ys : List ℚ) : ℚ :=
  (((xs.zip ys).map (fun p => (p.1 - meanQ xs) * (p.2 - meanQ ys))).sum) /
    (((xs.zip ys).length : ℚ) - 1)

/-- Sample variance of a series. -/
def varQ (xs : List ℚ) : ℚ := covQ xs xs

/-- Pearson correlation as pandas `DataFrame.corr()` computes each cell:
covariance over the product of standard deviations.  The square root inside
the standard deviation is numpy's, an external numeric primitive, so `std`
is a parameter; every theorem needing it carries its defining property
`std r * std r = varQ r` on the series involved. -/
def corrQ (std : List ℚ → ℚ) (xs ys : List ℚ) : ℚ :=
  covQ xs ys / (std xs * std ys)

/-- Correlation matrix built by `update_correlation_matrix`
(`advanced_risk_manager.py` lines 148-156): returns of every series, then
the full labelled grid of pairwise correlations (a DataFrame embedded as
rows of labelled columns). -/
def correlationMatrixOf (std : List ℚ → ℚ) (price_data : List (String × List ℚ)) :
    List (String × List (String × ℚ)) :=
  price_data.map (fun si =>
    (si.1, price_data.map (fun sj =>
      (sj.1, corrQ std (pct_change si.2) (pct_change sj.2)))))

/-- Cell access `matrix[i][j]` with 0 outside the index (the claims only
inspect cells whose labels are present). -/
def matrixEntry (matrix : List (String × List (String × ℚ))) (i j : String) : ℚ :=
  (alookup j ((alookup i matrix).getD [])).getD 0

/-- Column `matrix[j]` of the embedded DataFrame, one value per row
(`correlation_matrix[symbol]` in the source). -/
def matrixColumn (matrix : List (String × List (String × ℚ))) (j : String) : List ℚ :=
  matrix.map (fun row => (alookup j row.2).getD 0)

/-- Row of the embedded DataFrame at label `i`, values only. -/
def matrixRow (matrix : List (String × List (String × ℚ))) (i : String) : List ℚ :=
  ((alookup i matrix).getD []).map Prod.snd

/-- Full `update_correlation_matrix` (lines 145-167): store the recomputed
matrix, then set each stored market condition's `correlation` field to the
mean of that symbol's matrix column whenever the symbol is in the matrix. -/
def update_correlation_matrix (std : List ℚ → ℚ) (rm : AdvancedRiskManagerState)
    (price_data : List (String × List ℚ)) : AdvancedRiskManagerState :=
  let matrix := correlationMatrixOf std price_data
  { rm with
    correlation_matrix := some matrix
    market_conditions := rm.market_conditions.map (fun sc =>
      if (alookup sc.1 matrix).isSome then
        (sc.1, { sc.2 with correlation := meanQ (matrixColumn matrix sc.1) })
      else sc) }

/-- Risk-manager state with the default `__init__` thresholds and no stored
market conditions. -/
def rmNoConditions : AdvancedRiskManagerState :=
  { emergency_triggers :=
      { max_drawdown := 15/100, max_daily_loss := 5/100,
        min_liquidity := 1000000, max_volatility := 5/100 }
    market_conditions := []
    correlation_matrix := none }

/-- Risk-manager state with the default thresholds and two stored market
conditions: symbol `AAA` with calm volatility but poor liquidity, symbol
`BBB` with excessive volatility but full liquidity. -/
def rmTwoConditions : AdvancedRiskManagerState :=
  { emergency_triggers :=
      { max_drawdown := 15/100, max_daily_loss := 5/100,
        min_liquidity := 1000000, max_volatility := 5/100 }
    market_conditions :=
      [("AAA", { volatility := 1/100, correlation := 0, trend_strength := 0,
                 liquidity := 3/10, sentiment := 1/2 }),
       ("BBB", { volatility := 1/10, correlation := 0, trend_strength := 0,
                 liquidity := 1, sentiment := 1/2 })]
    correlation_matrix := none }

/-- Standard deviation oracle for the concrete correlation witness: correct
(squares to the sample variance) on the one return series the witness price
data produces. -/
def stdW : List ℚ → ℚ :=
  fun xs => if xs = [1/2, -(1/2), 0] then 1/2 else 0

/-- Witness price data: two symbols whose price series have the common
return series `[1/2, -1/2, 0]`, whose sample variance 1/4 is a perfect
rational square. -/
def pdW : List (String × List ℚ) :=
  [("AAA", [1, 3/2, 3/4, 3/4]), ("BBB", [2, 3, 3/2, 3/2])]

/-- C2: on any market condition with nonnegative volatility and trend
strength, `calculate_dynamic_stop_loss` returns the stop/take-profit pair
given by the base 2 percent stop scaled by the volatility ratio and the
trend factor and clamped to [1 percent, 5 percent], with a 2:1 target. -/
theorem calculate_dynamic_stop_loss_formula (rm : AdvancedRiskManagerState)
    (symbol : String) (entry_price position_size vol corr ts liq sent : ℚ)
    (hv : 0 ≤ vol) (ht : 0 ≤ ts) :
    calculate_dynamic_stop_loss rm symbol entry_price position_size
        (some ⟨vol, corr, ts, liq, sent⟩) =
      (entry_price * (1 - min (max ((2/100) * (vol / (2/100)) * (1 + ts / 100)) (1/100)) (5/100)),
       entry_price * (1 + 2 * min (max ((2/100) * (vol / (2/100)) * (1 + ts / 100)) (1/100)) (5/100)))
    ∧ 1/100 ≤ min (max ((2/100) * (vol / (2/100)) * (1 + ts / 100)) (1/100)) (5/100)
    ∧ min (max ((2/100) * (vol / (2/100)) * (1 + ts / 100)) (1/100)) (5/100) ≤ 5/100 := by
  refine ⟨?_, le_min (le_max_right _ _) (by norm_num), min_le_right _ _⟩
  simp only [calculate_dynamic_stop_loss, calculateDynamicStopLossCore]
  ring_nf

/-- Witness for C2 at the spec scenario: entry 100, volatility equal to the
2 percent reference, zero trend strength give stop 98 and take-profit 104. -/
theorem calculate_dynamic_stop_loss_formula_witness :
    (0:ℚ) ≤ 2/100 ∧ (0:ℚ) ≤ 0 ∧
    calculate_dynamic_stop_loss rmNoConditions "BTC" 100 1
      (some ⟨2/100, 0, 0, 1, 1/2⟩) = (98, 104) := by
  refine ⟨by norm_num, le_refl 0, ?_⟩
  have h := (calculate_dynamic_stop_loss_formula rmNoConditions "BTC" 100 1
    (2/100) 0 0 1 (1/2) (by norm_num) (le_refl 0)).1
  rw [h]
  norm_num

/-- C8 counterexample: with no stored condition and none passed, the
internal `No market condition data` error is raised, but the function's own
handler catches it and returns the fixed fallback pair — the caller sees a
normal result, not an error. -/
theorem calculate_dynamic_stop_loss_no_condition_counterexample :
    calculateDynamicStopLossCore rmNoConditions "BTC" 100 none =
      Except.error "No market condition data for BTC" ∧
    calculate_dynamic_stop_loss rmNoConditions "BTC" 100 1 none = (98, 104) := by
  constructor
  · rfl
  · show ((100 : ℚ) * (98/100), (100 : ℚ) * (104/100)) = (98, 104)
    norm_num

/-- C8 (amended): a missing market condition raises the `No market
condition data` ValueError inside the body, and the function's own `except`
handler converts it into the fixed fallback stop `entry_price * 0.98` and
take-profit `entry_price * 1.04`, returned directly to the caller. -/
theorem calculate_dynamic_stop_loss_fallback (rm : AdvancedRiskManagerState)
    (symbol : String) (entry_price position_size : ℚ)
    (h : alookup symbol rm.market_conditions = none) :
    calculateDynamicStopLossCore rm symbol entry_price none =
      Except.error ("No market condition data for " ++ symbol) ∧
    calculate_dynamic_stop_loss rm symbol entry_price position_size none =
      (entry_price * (98/100), entry_price * (104/100)) := by
  have hc : calculateDynamicStopLossCore rm symbol entry_price none =
      Except.error ("No market condition data for " ++ symbol) := by
    simp only [calculateDynamicStopLossCore, h]
  exact ⟨hc, by simp only [calculate_dynamic_stop_loss, hc]⟩

/-- Witness for the amended C8 at a concrete empty-state input. -/
theorem calculate_dynamic_stop_loss_fallback_witness :
    alookup "BTC" rmNoConditions.market_conditions = none ∧
    calculate_dynamic_stop_loss rmNoConditions "BTC" 100 1 none = (98, 104) := by
  refine ⟨rfl, ?_⟩
  have h := (calculate_dynamic_stop_loss_fallback rmNoConditions "BTC" 100 1 rfl).2
  rw [h]
  norm_num

/-- C10: on an empty portfolio snapshot `check_emergency_shutdown` returns
true with the fail-safe error reason: the peak-value computation takes
`max` of an empty sequence, the resulting ValueError is caught, and the
handler reports an emergency instead of `(False, "")`. -/
theorem check_emergency_shutdown_empty_portfolio (rm : AdvancedRiskManagerState) :
    (check_emergency_shutdown rm []).1 = true ∧
    (check_emergency_shutdown rm []).2 =
      reasonError "max() arg is an empty sequence" ∧
    (check_emergency_shutdown rm []).2 ≠ "" := by
  refine ⟨rfl, rfl, ?_⟩
  exact (by decide : ¬ (reasonError "max() arg is an empty sequence" = ""))

/-- Length bound for Python dict key insertion. -/
theorem dictInsertKey_length_le (positions : List String) (symbol : String) :
    (dictInsertKey positions symbol).length ≤ positions.length + 1 := by
  unfold dictInsertKey
  split
  · exact Nat.le_succ _
  · exact Nat.le_refl _

/-- C3: if the open-position count is at most `max_open_positions` before
`_check_and_execute_trades`, it still is afterwards, whatever each symbol's
evaluation does: the loop breaks as soon as the count reaches the maximum,
so a position is only recorded while the count is strictly below it. -/
theorem max_open_positions_invariant (max_open_positions : ℕ)
    (outcome : String → TradeOutcome) (symbols positions : List String)
    (h : positions.length ≤ max_open_positions) :
    (checkAndExecuteTrades max_open_positions outcome positions symbols).length
      ≤ max_open_positions := by
  induction symbols generalizing positions with
  | nil => exact h
  | cons s rest ih =>
    rw [checkAndExecuteTrades]
    by_cases hb : positions.length ≥ max_open_positions
    · rw [if_pos hb]; exact h
    · rw [if_neg hb]
      cases outcome s with
      | noTrade => exact ih positions h
      | filled =>
        refine ih (dictInsertKey positions s) ?_
        calc (dictInsertKey positions s).length ≤ positions.length + 1 :=
              dictInsertKey_length_le positions s
          _ ≤ max_open_positions := Nat.succ_le_of_lt (Nat.lt_of_not_le (fun hle => hb hle))
      | raises => exact h

/-- Witness for C3: three symbols all filling orders against a maximum of
two open positions still end with at most two. -/
theorem max_open_positions_invariant_witness :
    ([] : List String).length ≤ 2 ∧
    (checkAndExecuteTrades 2 (fun _ => TradeOutcome.filled) []
      ["BTC", "ETH", "SOL"]).length ≤ 2 :=
  ⟨by decide, max_open_positions_invariant 2 (fun _ => TradeOutcome.filled)
    ["BTC", "ETH", "SOL"] [] (by decide)⟩

/-- C9: once a position's stop-loss is set, a monitoring pass either leaves
it unchanged or replaces it with a strictly greater value, for every
possible trailing-stop computation and current price — the update is
guarded by `new_stop > position.get('stop_loss', 0)`. -/
theorem trailing_stop_monotone (calculate_trailing_stop : ℚ → ℚ → ℚ)
    (current_price : ℚ) (position : EnginePosition) (v : ℚ)
    (h : position.stop_loss = some v) :
    (monitorPositionStop calculate_trailing_stop current_price position).stop_loss = some v ∨
    (∃ w, (monitorPositionStop calculate_trailing_stop current_price position).stop_loss
        = some w ∧ v < w) := by
  unfold monitorPositionStop
  by_cases hc : calculate_trailing_stop position.price current_price >
      position.stop_loss.getD 0
  · right
    refine ⟨calculate_trailing_stop position.price current_price, ?_, ?_⟩
    · simp only [if_pos hc]
    · rw [h] at hc
      simpa using hc
  · left
    simp only [if_neg hc]
    exact h

/-- Witness for C9: a concrete trailing computation raising a stored stop
from 1 to 3. -/
theorem trailing_stop_monotone_witness :
    (⟨1, 1, some 1⟩ : EnginePosition).stop_loss = some 1 ∧
    ((monitorPositionStop (fun e c => e + c) 2 ⟨1, 1, some 1⟩).stop_loss = some 1 ∨
     ∃ w, (monitorPositionStop (fun e c => e + c) 2 ⟨1, 1, some 1⟩).stop_loss = some w
        ∧ (1:ℚ) < w) :=
  ⟨rfl, trailing_stop_monotone (fun e c => e + c) 2 ⟨1, 1, some 1⟩ 1 rfl⟩

/-- C4: two concrete violations of the [0,1] confidence/probability
invariant.  A ranging classification with a negative Bollinger percent-band
(price below the lower band) stores confidence 1.5, contradicting the
`# 0 to 1` comment on the `MarketRegime` dataclass; and `predict` amplifies
an unclamped probability beyond 1 in a trending regime the detector itself
produced (ADX 40, raw probability 0.8 gives 1.056). -/
theorem confidence_probability_range_violation :
    detect_market_regime ⟨20, -(1/2), 1, 0⟩ =
      { type := "ranging", strength := 1/5, direction := 1, confidence := 3/2 } ∧
    ¬ (detect_market_regime ⟨20, -(1/2), 1, 0⟩).confidence ≤ 1 ∧
    detect_market_regime ⟨40, 0, 1, 0⟩ =
      { type := "trending", strength := 2/5, direction := 1, confidence := 4/5 } ∧
    regimeAdjustedProbability [4/5, 1/5] (some (detect_market_regime ⟨40, 0, 1, 0⟩))
      = 132/125 ∧
    ¬ regimeAdjustedProbability [4/5, 1/5] (some (detect_market_regime ⟨40, 0, 1, 0⟩))
      ≤ 1 := by
  have h1 : detect_market_regime ⟨20, -(1/2), 1, 0⟩ =
      { type := "ranging", strength := 1/5, direction := 1, confidence := 3/2 } := by
    unfold detect_market_regime npSign
    norm_num
  have h2 : detect_market_regime ⟨40, 0, 1, 0⟩ =
      { type := "trending", strength := 2/5, direction := 1, confidence := 4/5 } := by
    unfold detect_market_regime npSign
    norm_num
  have h3 : regimeAdjustedProbability [4/5, 1/5] (some (detect_market_regime ⟨40, 0, 1, 0⟩))
      = 132/125 := by
    rw [h2]
    show listMaxQ [4/5 * (1 + 2/5 * (4/5)), 1/5 * (1 + 2/5 * (4/5))] = 132/125
    simp only [listMaxQ, List.foldl_cons, List.foldl_nil]
    norm_num [max_def]
  refine ⟨h1, ?_, h2, h3, ?_⟩
  · rw [h1]
    norm_num
  · rw [h3]
    norm_num

/-- Scaling a nonempty list by a nonnegative factor scales its maximum. -/
theorem listMaxQ_map_mul (c : ℚ) (hc : 0 ≤ c) (x : ℚ) (xs : List ℚ) :
    listMaxQ ((x :: xs).map (fun p => p * c)) = listMaxQ (x :: xs) * c := by
  induction xs generalizing x with
  | nil => simp [listMaxQ]
  | cons y ys ih =>
    have hmax : max (x * c) (y * c) = max x y * c := (max_mul_of_nonneg x y hc).symm
    calc listMaxQ ((x :: y :: ys).map (fun p => p * c))
        = listMaxQ ((max x y :: ys).map (fun p => p * c)) := by
          simp [listMaxQ, hmax]
      _ = listMaxQ (max x y :: ys) * c := ih (max x y)
      _ = listMaxQ (x :: y :: ys) * c := by simp [listMaxQ]

/-- C5: with a stored regime whose strength and confidence are in range, the
probability `predict` returns is the raw model probability (the max of the
`predict_proba` vector) amplified by `1 + strength * confidence` when
trending, dampened by `1 - confidence * 0.5` when ranging and by
`1 - confidence * 0.7` when volatile. -/
theorem predict_regime_adjustment (x : ℚ) (xs : List ℚ) (r : MarketRegime)
    (hs : 0 ≤ r.strength) (hc0 : 0 ≤ r.confidence) (hc1 : r.confidence ≤ 1) :
    (r.type = "trending" →
      regimeAdjustedProbability (x :: xs) (some r) =
        listMaxQ (x :: xs) * (1 + r.strength * r.confidence)) ∧
    (r.type = "ranging" →
      regimeAdjustedProbability (x :: xs) (some r) =
        listMaxQ (x :: xs) * (1 - r.confidence * (1/2))) ∧
    (r.type = "volatile" →
      regimeAdjustedProbability (x :: xs) (some r) =
        listMaxQ (x :: xs) * (1 - r.confidence * (7/10))) := by
  refine ⟨fun ht => ?_, fun ht => ?_, fun ht => ?_⟩
  · have hf : (0:ℚ) ≤ 1 + r.strength * r.confidence := by
      have := mul_nonneg hs hc0
      linarith
    simp only [regimeAdjustedProbability, if_pos ht]
    exact listMaxQ_map_mul _ hf x xs
  · have hn : ¬ r.type = "trending" := by rw [ht]; decide
    have hf : (0:ℚ) ≤ 1 - r.confidence * (1/2) := by linarith
    simp only [regimeAdjustedProbability, if_neg hn, if_pos ht]
    exact listMaxQ_map_mul _ hf x xs
  · have hn : ¬ r.type = "trending" := by rw [ht]; decide
    have hn2 : ¬ r.type = "ranging" := by rw [ht]; decide
    have hf : (0:ℚ) ≤ 1 - r.confidence * (7/10) := by linarith
    simp only [regimeAdjustedProbability, if_neg hn, if_neg hn2, if_pos ht]
    exact listMaxQ_map_mul _ hf x xs

/-- Witness for C5 at the spec scenario: trending regime, strength 0.5,
confidence 0.8, raw probability 0.6 give adjusted probability 0.84. -/
theorem predict_regime_adjustment_witness :
    (0:ℚ) ≤ (1:ℚ)/2 ∧ (0:ℚ) ≤ (4:ℚ)/5 ∧ (4:ℚ)/5 ≤ 1 ∧
    regimeAdjustedProbability [2/5, 3/5] (some ⟨"trending", 1/2, 1, 4/5⟩) = 21/25 := by
  refine ⟨by norm_num, by norm_num, by norm_num, ?_⟩
  have h := (predict_regime_adjustment (2/5) [3/5] ⟨"trending", 1/2, 1, 4/5⟩
      (by norm_num) (by norm_num) (by norm_num)).1 rfl
  rw [h]
  show listMaxQ [2/5, 3/5] * (1 + 1/2 * (4/5)) = 21/25
  simp only [listMaxQ, List.foldl_cons, List.foldl_nil]
  norm_num [max_def]

/-- C6: the amplification branch of `_combine_signals` never executes its
stated effect.  At traditional signal 0.5, buy action, confidence 1 and
predicted return 0.2 (threshold 0.02), the claim's formula gives 0.88, but
the body raises `NameError` on `np.sign` (numpy is never imported in
`trading_engine.py`) and the handler returns 0. -/
theorem combine_signals_amplification_never_applied :
    combine_signals (1/50) (1/2) 1 1 (1/5) = 0 ∧
    combineSignalsCore (1/50) (1/2) 1 1 (1/5) =
      Except.error "name np is not defined" ∧
    combineSignalsClaimed (1/50) (1/2) 1 1 (1/5) = 22/25 ∧
    (0 : ℚ) ≠ 22/25 := by
  have hgt : |(1/5 : ℚ)| > 1/50 := by
    rw [abs_of_pos (by norm_num : (0:ℚ) < 1/5)]
    norm_num
  have hcore : combineSignalsCore (1/50) (1/2) 1 1 (1/5) =
      Except.error "name np is not defined" := by
    simp only [combineSignalsCore]
    rw [if_pos hgt]
  refine ⟨?_, hcore, ?_, by norm_num⟩
  · simp only [combine_signals, hcore]
  · simp only [combineSignalsClaimed]
    rw [if_pos hgt, abs_of_pos (by norm_num : (0:ℚ) < 1/5),
      min_eq_right (by norm_num : (1:ℚ)/10 ≤ 1/5)]
    simp only [npSign]
    rw [if_pos (by norm_num : (0:ℚ) < 1/5)]
    norm_num

/-- Appending to a string of nonzero length keeps the length nonzero. -/
theorem append_length_ne_zero (s t : String) (h : s.length ≠ 0) :
    (s ++ t).length ≠ 0 := by
  rw [String.length_append]
  omega

/-- A string of nonzero length is not the empty string. -/
theorem ne_empty_of_length_ne_zero (s : String) (h : s.length ≠ 0) : s ≠ "" := by
  intro he
  rw [he] at h
  exact h rfl

/-- Drawdown reasons are never the empty string. -/
theorem reasonDrawdown_ne_empty (d : ℚ) : reasonDrawdown d ≠ "" :=
  ne_empty_of_length_ne_zero _ (append_length_ne_zero _ _ (by decide))

/-- Daily-loss reasons are never the empty string. -/
theorem reasonDailyLoss_ne_empty (d : ℚ) : reasonDailyLoss d ≠ "" :=
  ne_empty_of_length_ne_zero _ (append_length_ne_zero _ _ (by decide))

/-- Volatility reasons are never the empty string. -/
theorem reasonVolatility_ne_empty (s : String) (v : ℚ) : reasonVolatility s v ≠ "" :=
  ne_empty_of_length_ne_zero _ (append_length_ne_zero _ _
    (append_length_ne_zero _ _ (append_length_ne_zero _ _ (by decide))))

/-- Liquidity reasons are never the empty string. -/
theorem reasonLiquidity_ne_empty (s : String) : reasonLiquidity s ≠ "" :=
  ne_empty_of_length_ne_zero _ (append_length_ne_zero _ _ (by decide))

/-- Error reasons are never the empty string. -/
theorem reasonError_ne_empty (m : String) : reasonError m ≠ "" :=
  ne_empty_of_length_ne_zero _ (append_length_ne_zero _ _ (by decide))

/-- The market-condition loop of the source equals a first-match scan over
the interleaved per-symbol trigger list. -/
theorem checkConditions_eq_firstMatch (trig : EmergencyTriggers)
    (conds : List (String × MarketCondition)) :
    checkConditions trig conds = firstMatch (conditionTriggers trig conds) := by
  induction conds with
  | nil => rfl
  | cons sc rest ih =>
    obtain ⟨symbol, condition⟩ := sc
    simp only [checkConditions, conditionTriggers, List.flatMap_cons, List.cons_append,
      List.nil_append, firstMatch, decide_eq_true_eq]
    by_cases h1 : condition.volatility > trig.max_volatility
    · rw [if_pos h1, if_pos h1]
    · rw [if_neg h1, if_neg h1]
      by_cases h2 : condition.liquidity < 1/2
      · rw [if_pos h2, if_pos h2]
      · rw [if_neg h2, if_neg h2]
        rw [ih]
        rfl

/-- Every reason in the per-symbol trigger list is non-empty. -/
theorem conditionTriggers_reason_ne_empty (trig : EmergencyTriggers)
    (conds : List (String × MarketCondition)) :
    ∀ t ∈ conditionTriggers trig conds, t.2 ≠ "" := by
  intro t ht
  simp only [conditionTriggers, List.mem_flatMap, List.mem_cons,
    List.mem_singleton, List.not_mem_nil, or_false] at ht
  obtain ⟨sc, _, hmem⟩ := ht
  rcases hmem with h | h
  · rw [h]; exact reasonVolatility_ne_empty _ _
  · rw [h]; exact reasonLiquidity_ne_empty _

/-- A first-match scan over triggers with non-empty reasons reports false
exactly when its reason is empty. -/
theorem firstMatch_false_iff (l : List (Bool × String)) (h : ∀ t ∈ l, t.2 ≠ "") :
    ((firstMatch l).1 = false ↔ (firstMatch l).2 = "") := by
  induction l with
  | nil => simp [firstMatch]
  | cons t rest ih =>
    by_cases ht : t.1 = true
    · have hne := h t (List.mem_cons_self t rest)
      simp [firstMatch, ht, hne]
    · simp only [Bool.not_eq_true] at ht
      simp only [firstMatch, ht, Bool.false_eq_true, if_false]
      exact ih (fun u hu => h u (List.mem_cons_of_mem t hu))

/-- The source function is extensionally the interleaved first-match
specification. -/
theorem check_emergency_shutdown_eq_spec (rm : AdvancedRiskManagerState)
    (portfolio : List PortfolioPosition) :
    check_emergency_shutdown rm portfolio = checkEmergencyShutdownSpec rm portfolio := by
  unfold check_emergency_shutdown checkEmergencyShutdownCore checkEmergencyShutdownSpec
  cases hm : pyMax (portfolio.map PortfolioPosition.peak_value) with
  | error e => rfl
  | ok pk =>
    dsimp only
    simp only [portfolioTriggers, List.cons_append, List.nil_append]
    by_cases h1 : (if pk > 0 then (pk - (portfolio.map PortfolioPosition.value).sum) / pk
        else 0) > rm.emergency_triggers.max_drawdown
    · simp [firstMatch, h1]
    · by_cases h2 : (if (portfolio.map PortfolioPosition.value).sum > 0 then
          (portfolio.map PortfolioPosition.daily_pl).sum /
            (portfolio.map PortfolioPosition.value).sum else 0) <
          -rm.emergency_triggers.max_daily_loss
      · simp [firstMatch, h1, h2]
      · simp only [if_neg h1, if_neg h2, firstMatch, decide_eq_true_eq]
        exact checkConditions_eq_firstMatch rm.emergency_triggers rm.market_conditions

/-- C1 (amended): `check_emergency_shutdown` evaluates its triggers in the
fixed order (1) drawdown, (2) daily loss, then per instrument in dict order
(3) that instrument's volatility and (4) that instrument's liquidity —
rather than all volatility checks before all liquidity checks; the first
matching trigger short-circuits with a non-empty reason, no matching
trigger gives `(false, "")`, an internal error gives `(true, non-empty
reason)`, and a drawdown exactly at the threshold does not fire the
drawdown trigger. -/
theorem check_emergency_shutdown_props (rm : AdvancedRiskManagerState)
    (portfolio : List PortfolioPosition) :
    check_emergency_shutdown rm portfolio = checkEmergencyShutdownSpec rm portfolio ∧
    ((check_emergency_shutdown rm portfolio).1 = false ↔
      (check_emergency_shutdown rm portfolio).2 = "") ∧
    (portfolioDrawdown portfolio = rm.emergency_triggers.max_drawdown →
      check_emergency_shutdown rm portfolio =
        checkEmergencyShutdownFromDaily rm portfolio) := by
  refine ⟨check_emergency_shutdown_eq_spec rm portfolio, ?_, ?_⟩
  · rw [check_emergency_shutdown_eq_spec]
    unfold checkEmergencyShutdownSpec
    cases hm : pyMax (portfolio.map PortfolioPosition.peak_value) with
    | error e => simp [reasonError_ne_empty e]
    | ok pk =>
      dsimp only
      apply firstMatch_false_iff
      intro t ht
      simp only [portfolioTriggers, List.cons_append, List.nil_append,
        List.mem_cons] at ht
      rcases ht with h | h | h
      · rw [h]; exact reasonDrawdown_ne_empty _
      · rw [h]; exact reasonDailyLoss_ne_empty _
      · exact conditionTriggers_reason_ne_empty _ _ t h
  · intro hdd
    rw [check_emergency_shutdown_eq_spec]
    unfold checkEmergencyShutdownSpec checkEmergencyShutdownFromDaily
    unfold portfolioDrawdown at hdd
    cases hm : pyMax (portfolio.map PortfolioPosition.peak_value) with
    | error e => rfl
    | ok pk =>
      rw [hm] at hdd
      dsimp only at hdd ⊢
      simp only [portfolioTriggers, List.cons_append, List.nil_append,
        List.drop_succ_cons, List.drop_zero]
      have hno : ¬ ((if pk > 0 then
          (pk - (portfolio.map PortfolioPosition.value).sum) / pk else 0) >
          rm.emergency_triggers.max_drawdown) := by
        rw [hdd]
        exact lt_irrefl _
      simp only [firstMatch, decide_eq_true_eq]
      rw [if_neg hno]

/-- C1 counterexample: symbol `AAA` (earlier in dict order) has a liquidity
breach and symbol `BBB` (later) a volatility breach; the code reports the
liquidity reason for `AAA`, while the claim's fixed order — every
volatility check before any liquidity check — reports the volatility
reason for `BBB`. -/
theorem check_emergency_shutdown_order_counterexample :
    check_emergency_shutdown rmTwoConditions [⟨100, 100, 0⟩] =
      (true, reasonLiquidity "AAA") ∧
    checkEmergencyShutdownClaimOrder rmTwoConditions [⟨100, 100, 0⟩] =
      (true, reasonVolatility "BBB" (1/10)) ∧
    check_emergency_shutdown rmTwoConditions [⟨100, 100, 0⟩] ≠
      checkEmergencyShutdownClaimOrder rmTwoConditions [⟨100, 100, 0⟩] := by
  have h1 : check_emergency_shutdown rmTwoConditions [⟨100, 100, 0⟩] =
      (true, reasonLiquidity "AAA") := by
    norm_num [check_emergency_shutdown, checkEmergencyShutdownCore, pyMax,
      checkConditions, rmTwoConditions]
  have h2 : checkEmergencyShutdownClaimOrder rmTwoConditions [⟨100, 100, 0⟩] =
      (true, reasonVolatility "BBB" (1/10)) := by
    norm_num [checkEmergencyShutdownClaimOrder, portfolioTriggers,
      conditionTriggersClaimOrder, firstMatch, pyMax, rmTwoConditions]
  refine ⟨h1, h2, ?_⟩
  rw [h1, h2]
  intro h
  have hh : (reasonLiquidity "AAA").data.head? = (reasonVolatility "BBB" (1/10)).data.head? :=
    congrArg (fun r : Bool × String => r.2.data.head?) h
  have e1 : (reasonLiquidity "AAA").data.head? = some 'I' := rfl
  have e2 : (reasonVolatility "BBB" (1/10)).data.head? = some 'E' := rfl
  rw [e1, e2] at hh
  exact absurd hh (by decide)

/-- Witness for C1: a snapshot whose drawdown is exactly the 15 percent
threshold does not fire the drawdown trigger. -/
theorem check_emergency_shutdown_props_witness :
    portfolioDrawdown [⟨85, 100, 0⟩] = rmTwoConditions.emergency_triggers.max_drawdown ∧
    check_emergency_shutdown rmTwoConditions [⟨85, 100, 0⟩] =
      checkEmergencyShutdownFromDaily rmTwoConditions [⟨85, 100, 0⟩] := by
  have hd : portfolioDrawdown [⟨85, 100, 0⟩] =
      rmTwoConditions.emergency_triggers.max_drawdown := by
    norm_num [portfolioDrawdown, pyMax, rmTwoConditions]
  exact ⟨hd, (check_emergency_shutdown_props rmTwoConditions [⟨85, 100, 0⟩]).2.2 hd⟩

/-- Looking a key up in a map whose entries keep the original keys is a
search over the original list. -/
theorem alookup_map_keyed {β γ : Type} (g : String × β → γ) (pd : List (String × β))
    (i : String) :
    alookup i (pd.map (fun s => (s.1, g s))) = (afind i pd).map g := by
  induction pd with
  | nil => rfl
  | cons s rest ih =>
    simp only [List.map_cons, alookup, afind]
    by_cases h : s.1 = i
    · simp [h]
    · simp [h, ih]

/-- A successful association search returns an element of the list bearing
the searched key. -/
theorem afind_mem {β : Type} (i : String) (pd : List (String × β)) (s : String × β)
    (h : afind i pd = some s) : s ∈ pd ∧ s.1 = i := by
  induction pd with
  | nil => exact absurd h (by simp [afind])
  | cons t rest ih =>
    simp only [afind] at h
    by_cases ht : t.1 = i
    · rw [if_pos ht] at h
      obtain rfl : t = s := by injection h
      exact ⟨List.mem_cons_self t rest, ht⟩
    · rw [if_neg ht] at h
      obtain ⟨hm, hk⟩ := ih h
      exact ⟨List.mem_cons_of_mem t hm, hk⟩

/-- A present key is found by the association search. -/
theorem afind_isSome_of_mem {β : Type} (pd : List (String × β)) (s : String × β)
    (hs : s ∈ pd) : ∃ t, afind s.1 pd = some t := by
  induction pd with
  | nil => cases hs
  | cons u rest ih =>
    by_cases hu : u.1 = s.1
    · exact ⟨u, by simp [afind, hu]⟩
    · rcases List.mem_cons.mp hs with rfl | hmem
      · exact absurd rfl hu
      · obtain ⟨t, hfind⟩ := ih hmem
        exact ⟨t, by simp [afind, hu, hfind]⟩

/-- Swapping the two series swaps the centered cross products without
changing their sum. -/
theorem zip_cross_sum_comm (a b : ℚ) (xs ys : List ℚ) :
    ((xs.zip ys).map (fun p => (p.1 - a) * (p.2 - b))).sum =
    ((ys.zip xs).map (fun p => (p.1 - b) * (p.2 - a))).sum := by
  induction xs generalizing ys with
  | nil => cases ys <;> simp
  | cons x xs ih =>
    cases ys with
    | nil => simp
    | cons y ys =>
      simp only [List.zip_cons_cons, List.map_cons, List.sum_cons, ih ys]
      rw [mul_comm]

/-- Sample covariance is symmetric. -/
theorem covQ_comm (xs ys : List ℚ) : covQ xs ys = covQ ys xs := by
  unfold covQ
  rw [zip_cross_sum_comm (meanQ xs) (meanQ ys), List.length_zip, List.length_zip,
    Nat.min_comm]

/-- Pearson correlation is symmetric, whatever the standard-deviation
primitive does. -/
theorem corrQ_comm (std : List ℚ → ℚ) (xs ys : List ℚ) :
    corrQ std xs ys = corrQ std ys xs := by
  unfold corrQ
  rw [covQ_comm, mul_comm]

/-- Pearson correlation of a non-degenerate series with itself is 1, given a
standard deviation squaring to the variance. -/
theorem corrQ_self (std : List ℚ → ℚ) (xs : List ℚ)
    (hstd : std xs * std xs = varQ xs) (hnd : varQ xs ≠ 0) :
    corrQ std xs xs = 1 := by
  unfold corrQ
  rw [hstd]
  exact div_self hnd

/-- Each matrix cell is the pairwise correlation of the two looked-up
series. -/
theorem matrixEntry_corr (std : List ℚ → ℚ) (pd : List (String × List ℚ)) (i j : String) :
    matrixEntry (correlationMatrixOf std pd) i j =
      ((afind i pd).bind (fun si => (afind j pd).map (fun sj =>
        corrQ std (pct_change si.2) (pct_change sj.2)))).getD 0 := by
  unfold matrixEntry correlationMatrixOf
  rw [alookup_map_keyed
    (fun si => pd.map (fun sj => (sj.1, corrQ std (pct_change si.2) (pct_change sj.2)))) pd i]
  cases hfi : afind i pd with
  | none => simp [alookup]
  | some si =>
    simp only [Option.map_some', Option.getD_some, Option.some_bind]
    rw [alookup_map_keyed (fun sj => corrQ std (pct_change si.2) (pct_change sj.2)) pd j]

/-- The looked-up column of the correlation matrix at a present key equals
the looked-up row (entrywise symmetry). -/
theorem matrixColumn_eq_matrixRow (std : List ℚ → ℚ) (pd : List (String × List ℚ))
    (i : String) (si : String × List ℚ) (hfind : afind i pd = some si) :
    matrixColumn (correlationMatrixOf std pd) i = matrixRow (correlationMatrixOf std pd) i := by
  unfold matrixColumn matrixRow correlationMatrixOf
  rw [alookup_map_keyed
    (fun sk => pd.map (fun sj => (sj.1, corrQ std (pct_change sk.2) (pct_change sj.2)))) pd i,
    hfind]
  simp only [Option.map_some', Option.getD_some, List.map_map]
  apply List.map_congr_left
  intro sj _
  simp only [Function.comp_apply]
  rw [alookup_map_keyed (fun sk => corrQ std (pct_change sj.2) (pct_change sk.2)) pd i, hfind]
  simp [corrQ_comm]

/-- C7: the correlation matrix rebuilt by `update_correlation_matrix` is
symmetric with unit diagonal on non-degenerate inputs, each stored
condition's correlation field becomes the mean of that instrument's matrix
row, and a second call on identical price data leaves the whole state
unchanged. -/
theorem update_correlation_matrix_props (std : List ℚ → ℚ)
    (pd : List (String × List ℚ)) (rm : AdvancedRiskManagerState)
    (hstd : ∀ s ∈ pd, std (pct_change s.2) * std (pct_change s.2) = varQ (pct_change s.2))
    (hnd : ∀ s ∈ pd, varQ (pct_change s.2) ≠ 0) :
    (∀ i j, matrixEntry (correlationMatrixOf std pd) i j =
        matrixEntry (correlationMatrixOf std pd) j i) ∧
    (∀ s ∈ pd, matrixEntry (correlationMatrixOf std pd) s.1 s.1 = 1) ∧
    ((update_correlation_matrix std rm pd).market_conditions =
      rm.market_conditions.map (fun sc =>
        if (alookup sc.1 (correlationMatrixOf std pd)).isSome then
          (sc.1,
           { sc.2 with correlation := meanQ (matrixRow (correlationMatrixOf std pd) sc.1) })
        else sc)) ∧
    (update_correlation_matrix std (update_correlation_matrix std rm pd) pd =
      update_correlation_matrix std rm pd) := by
  have hsome : ∀ k : String, (alookup k (correlationMatrixOf std pd)).isSome →
      ∃ si, afind k pd = some si := by
    intro k hk
    unfold correlationMatrixOf at hk
    rw [alookup_map_keyed
      (fun si => pd.map (fun sj => (sj.1, corrQ std (pct_change si.2) (pct_change sj.2))))
      pd k] at hk
    cases hfk : afind k pd with
    | none => rw [hfk] at hk; simp at hk
    | some si => exact ⟨si, rfl⟩
  refine ⟨?_, ?_, ?_, ?_⟩
  · intro i j
    rw [matrixEntry_corr, matrixEntry_corr]
    cases afind i pd <;> cases afind j pd <;> simp [corrQ_comm]
  · intro s hs
    obtain ⟨si, hfind⟩ := afind_isSome_of_mem pd s hs
    obtain ⟨hmem, _⟩ := afind_mem s.1 pd si hfind
    rw [matrixEntry_corr, hfind]
    simp only [Option.some_bind, Option.map_some', Option.getD_some]
    exact corrQ_self std _ (hstd si hmem) (hnd si hmem)
  · unfold update_correlation_matrix
    dsimp only
    apply List.map_congr_left
    intro sc _
    by_cases hk : (alookup sc.1 (correlationMatrixOf std pd)).isSome
    · rw [if_pos hk, if_pos hk]
      obtain ⟨si, hfind⟩ := hsome sc.1 hk
      rw [matrixColumn_eq_matrixRow std pd sc.1 si hfind]
    · rw [if_neg hk, if_neg hk]
  · unfold update_correlation_matrix
    dsimp only
    simp only [AdvancedRiskManagerState.mk.injEq, and_true, true_and]
    rw [List.map_map]
    apply List.map_congr_left
    intro sc _
    simp only [Function.comp_apply]
    by_cases hk : (alookup sc.1 (correlationMatrixOf std pd)).isSome
    · rw [if_pos hk]
      dsimp only
      rw [if_pos hk]
    · rw [if_neg hk, if_neg hk]

/-- Witness for C7: two symbols whose return series is `[1/2, -1/2, 0]`
(sample variance 1/4, standard deviation 1/2), with the hypotheses on the
standard-deviation oracle discharged by computation. -/
theorem update_correlation_matrix_props_witness :
    matrixEntry (correlationMatrixOf stdW pdW) "AAA" "BBB" =
      matrixEntry (correlationMatrixOf stdW pdW) "BBB" "AAA" ∧
    matrixEntry (correlationMatrixOf stdW pdW) "AAA" "AAA" = 1 ∧
    update_correlation_matrix stdW (update_correlation_matrix stdW rmTwoConditions pdW) pdW =
      update_correlation_matrix stdW rmTwoConditions pdW := by
  have hA : pct_change [(1:ℚ), 3/2, 3/4, 3/4] = [1/2, -(1/2), 0] := by
    norm_num [pct_change, List.zip_cons_cons, List.zip_nil_right]
  have hB : pct_change [(2:ℚ), 3, 3/2, 3/2] = [1/2, -(1/2), 0] := by
    norm_num [pct_change, List.zip_cons_cons, List.zip_nil_right]
  have hvar : varQ [(1:ℚ)/2, -(1/2), 0] = 1/4 := by
    norm_num [varQ, covQ, meanQ, List.zip_cons_cons, List.zip_nil_right]
  have hstd : ∀ s ∈ pdW, stdW (pct_change s.2) * stdW (pct_change s.2) =
      varQ (pct_change s.2) := by
    intro s hs
    simp only [pdW, List.mem_cons, List.not_mem_nil, or_false] at hs
    rcases hs with rfl | rfl
    · dsimp only
      rw [hA, hvar]
      norm_num [stdW]
    · dsimp only
      rw [hB, hvar]
      norm_num [stdW]
  have hnd : ∀ s ∈ pdW, varQ (pct_change s.2) ≠ 0 := by
    intro s hs
    simp only [pdW, List.mem_cons, List.not_mem_nil, or_false] at hs
    rcases hs with rfl | rfl
    · dsimp only
      rw [hA, hvar]
      norm_num
    · dsimp only
      rw [hB, hvar]
      norm_num
  have h := update_correlation_matrix_props stdW pdW rmTwoConditions hstd hnd
  exact ⟨h.1 "AAA" "BBB", h.2.1 ("AAA", [1, 3/2, 3/4, 3/4]) (by simp [pdW]), h.2.2.2⟩
